import Mathlib

/-!
Verification of the FlowLinesLayer geometry builder, attribute binder defaults,
draw-uniform derivation and the tooltip-state selector of the flowmap.gl
example application, shallowly embedded from the TypeScript source
(src/examples/react-app/src/App.tsx).  Numeric values are modelled as
rationals; JS arrays of floats become lists of rationals.
-/

namespace FlowmapGL

/-- The default flow colour constant from the source, an RGBA quadruple. -/
def DEFAULT_COLOR : List ℚ := [0, 132, 193, 255]

/-- The fixed inner-side outline thickness constant from the source. -/
def INNER_SIDE_OUTLINE_THICKNESS : ℚ := 1

/-- The 9-vertex (3-triangle) local-space arrow template from the source.
Each vertex is a triple: source-target mix, perpendicular offset in
thickness units, direction-of-travel offset in thickness units. -/
def POSITIONS : List ℚ :=
  [1, 0, 0,
   1, 2, -3,
   1, 1, -3,

   1, 0, 0,
   1, 1, -3,
   0, 1, 0,

   1, 0, 0,
   0, 1, 0,
   0, 0, 0]

/-- The outline-shell pixel offsets from the source.  Each vertex is a
triple: perpendicular offset in pixels, direction-of-travel offset in
pixels, fill-outline colour mix. -/
def getOutlinePixelOffsets (tout tin : ℚ) : List ℚ :=
  [-tin, 2*tout, 1,
   2*tout, -tout, 1,
   tout, -tout, 1,

   -tin, 2*tout, 1,
   tout, -tout, 1,
   tout, -tout, 1,

   -tin, 2*tout, 1,
   tout, -tout, 1,
   -tin, -tout, 1]

/-- The all-zero pixel offsets of the fill shape from the source: nine
triples of zeroes. -/
def ZEROES : List ℚ :=
  [0, 0, 0,
   0, 0, 0,
   0, 0, 0,
   0, 0, 0,
   0, 0, 0,
   0, 0, 0,
   0, 0, 0,
   0, 0, 0,
   0, 0, 0]

/-- Modelled from the spec: the input-colour representation accepted by the
colour conversion of the data package (the package is part of this
repository but its source is not included here).  A colour is either an
RGB or RGBA component tuple, or malformed. -/
inductive ColorInput where
  | rgb (r g b : ℕ)
  | rgba (r g b a : ℕ)
  | malformed
deriving DecidableEq, Repr

/-- Clamp a component to the byte range. -/
def clampByte (n : ℕ) : ℕ := min n 255

/-- Modelled from the spec: the colour conversion of the data package (not
under the included sources) converts an input colour representation to
4 RGBA bytes each in the range 0..255; a malformed colour converts to a
falsy value, modelled as none. -/
def colorAsRgba : ColorInput → Option (List ℚ)
  | .rgb r g b => some [(clampByte r : ℚ), (clampByte g : ℚ), (clampByte b : ℚ), 255]
  | .rgba r g b a =>
      some [(clampByte r : ℚ), (clampByte g : ℚ), (clampByte b : ℚ), (clampByte a : ℚ)]
  | .malformed => none

/-- A flow record as the default accessors read it: an optional colour
field and a magnitude field named count. -/
structure FlowRecord where
  color : Option ColorInput
  count : ℚ
deriving DecidableEq, Repr

/-- Default source-position accessor from the source: always the origin. -/
def defaultGetSourcePosition (_d : FlowRecord) : ℚ × ℚ := (0, 0)

/-- Default target-position accessor from the source: always the origin. -/
def defaultGetTargetPosition (_d : FlowRecord) : ℚ × ℚ := (0, 0)

/-- Default colour accessor from the source: the colour field converted when
present and truthy, the default colour constant otherwise. -/
def defaultGetColor (d : FlowRecord) : List ℚ :=
  match d.color with
  | none => DEFAULT_COLOR
  | some c =>
    match colorAsRgba c with
    | none => DEFAULT_COLOR
    | some rgba => rgba

/-- Default thickness accessor from the source: the count field. -/
def defaultGetThickness (d : FlowRecord) : ℚ := d.count

/-- Default pickability accessor from the source: always 1.0. -/
def defaultGetPickable (_d : FlowRecord) : ℚ := 1

/-- The numeric and flag props of the layer read by the geometry builder
and the draw call. -/
structure Props where
  data : List FlowRecord
  drawOutline : Bool
  outlineColor : List ℚ
  outlineThickness : ℚ
  thicknessUnit : ℚ
deriving DecidableEq, Repr

/-- The draw parameters from the default props. -/
structure DrawParameters where
  depthTest : Bool
deriving DecidableEq, Repr

/-- Default draw parameters from the source: depth test disabled. -/
def defaultParameters : DrawParameters := { depthTest := false }

/-- The default numeric and flag props from the source. -/
def defaultProps (data : List FlowRecord) : Props :=
  { data := data
    drawOutline := true
    outlineColor := [255, 255, 255, 255]
    outlineThickness := 1
    thicknessUnit := 12 }

/-- The geometry template built by the model constructor: two parallel
float arrays. -/
structure Template where
  positions : List ℚ
  pixelOffsets : List ℚ
deriving DecidableEq, Repr

/-- The geometry template construction from the source: when the outline is
drawn, first the outline shell (template positions with the outline pixel
offsets computed from the outline thickness and the fixed inner thickness),
then in every case the fill shape (template positions with all-zero pixel
offsets) appended last. -/
def getModel (props : Props) : Template :=
  let positions0 : List ℚ := []
  let pixelOffsets0 : List ℚ := []
  let step :=
    if props.drawOutline then
      (positions0 ++ POSITIONS,
       pixelOffsets0 ++
         getOutlinePixelOffsets props.outlineThickness INNER_SIDE_OUTLINE_THICKNESS)
    else
      (positions0, pixelOffsets0)
  { positions := step.1 ++ POSITIONS
    pixelOffsets := step.2 ++ ZEROES }

/-- The change flags consulted by the state update from the source. -/
structure ChangeFlags where
  extensionsChanged : Bool
deriving DecidableEq, Repr

/-- The parameters of a state update: the new props, the old props and the
change flags. -/
structure UpdateParams where
  props : Props
  oldProps : Props
  changeFlags : ChangeFlags
deriving DecidableEq, Repr

/-- The mutable layer state holding the current geometry template. -/
structure LayerState where
  model : Option Template
deriving DecidableEq, Repr

/-- The state update from the source: the model is destroyed and rebuilt
from the current props exactly when the extensions changed; otherwise the
state is untouched. -/
def updateState (params : UpdateParams) (st : LayerState) : LayerState :=
  if params.changeFlags.extensionsChanged then
    { st with model := some (getModel params.props) }
  else
    st

/-- The uniforms set by the draw call. -/
structure Uniforms where
  outlineColor : List ℚ
  thicknessUnit : ℚ
  gap : ℚ
deriving DecidableEq, Repr

/-- The uniform derivation of the draw call from the source: outline colour
components divided by 255, thickness unit doubled, gap one half. -/
def draw (props : Props) : Uniforms :=
  { outlineColor := props.outlineColor.map (fun x => x / 255)
    thicknessUnit := props.thicknessUnit * 2
    gap := 1 / 2 }

/-- The per-location trip totals carried by a location picking info. -/
structure LocationTotals where
  incomingCount : ℚ
  outgoingCount : ℚ
  internalCount : ℚ
deriving DecidableEq, Repr

/-- Modelled from the spec for the picking-info union of the layers package
(part of this repository but not among the included sources): an info
carries screen coordinates and is discriminated by a type tag, with a
location variant, a flow variant, and any other tag falling through the
switch of the tooltip selector. -/
inductive PickingInfo where
  | location (x y : ℚ) (name : String) (totals : LocationTotals)
  | flow (x y : ℚ) (originId destId : String) (count : ℚ)
  | other (x y : ℚ)
deriving DecidableEq, Repr

/-- The screen position of a tooltip. -/
structure TooltipPosition where
  left : ℚ
  top : ℚ
deriving DecidableEq, Repr

/-- The content of a tooltip: either the location name with its trip totals
or the origin id, destination id and count of a flow. -/
inductive TooltipContent where
  | locationContent (name : String) (incomingCount outgoingCount internalCount : ℚ)
  | flowContent (originId destId : String) (count : ℚ)
deriving DecidableEq, Repr

/-- A tooltip state: a screen position and content. -/
structure TooltipState where
  position : TooltipPosition
  content : TooltipContent
deriving DecidableEq, Repr

/-- The tooltip-state selector from the source: no info yields no tooltip;
a location info yields the name and totals at the pointer position; a flow
info yields origin, destination and count at the pointer position; any
other tag yields no tooltip. -/
def getTooltipState : Option PickingInfo → Option TooltipState
  | none => none
  | some (.location x y name totals) =>
      some { position := { left := x, top := y }
             content := .locationContent name
               totals.incomingCount totals.outgoingCount totals.internalCount }
  | some (.flow x y originId destId count) =>
      some { position := { left := x, top := y }
             content := .flowContent originId destId count }
  | some (.other _ _) => none

lemma clampByte_nonneg (n : ℕ) : (0 : ℚ) ≤ (clampByte n : ℚ) := by
  exact_mod_cast Nat.zero_le (clampByte n)

lemma clampByte_le (n : ℕ) : (clampByte n : ℚ) ≤ 255 := by
  have h : clampByte n ≤ 255 := min_le_right n 255
  exact_mod_cast h

/-- C1 counterexample: with the default props (outline drawn, outline
thickness 1) the last 27 entries of the pixel-offsets array are not nine
triples of the form (0, 0, 1): the mix flag of the fill shape is 0. -/
theorem fill_mix_one_refuted :
    ¬ ((getModel (defaultProps [])).pixelOffsets.drop 27 =
        [0, 0, 1, 0, 0, 1, 0, 0, 1,
         0, 0, 1, 0, 0, 1, 0, 0, 1,
         0, 0, 1, 0, 0, 1, 0, 0, 1]) := by
  decide

/-- C1 (amended): for every props with the outline drawn, the fill shape is
appended last and its 9 pixel-offset triples are entirely zero, the mix
flag included: the last 27 entries of the pixel-offsets array are nine
triples (0, 0, 0), and the whole array is the outline offsets followed by
the zeroes. -/
theorem fill_appended_last_all_zero (data : List FlowRecord) (oc : List ℚ) (t tu : ℚ) :
    (getModel ⟨data, true, oc, t, tu⟩).pixelOffsets.drop 27 =
      [0, 0, 0, 0, 0, 0, 0, 0, 0,
       0, 0, 0, 0, 0, 0, 0, 0, 0,
       0, 0, 0, 0, 0, 0, 0, 0, 0] ∧
    (getModel ⟨data, true, oc, t, tu⟩).pixelOffsets =
      getOutlinePixelOffsets t INNER_SIDE_OUTLINE_THICKNESS ++ ZEROES := by
  constructor
  · show (getOutlinePixelOffsets t INNER_SIDE_OUTLINE_THICKNESS ++ ZEROES).drop 27 =
      [0, 0, 0, 0, 0, 0, 0, 0, 0,
       0, 0, 0, 0, 0, 0, 0, 0, 0,
       0, 0, 0, 0, 0, 0, 0, 0, 0]
    rfl
  · rfl

/-- C2 counterexample: an update in which the draw-mode flag did not change
(drawOutline stays true; only outlineThickness moved from 1 to 2) but whose
change flags report changed extensions does replace the geometry template,
refuting the claim that the template is rebuilt only when a draw-mode flag
changes. -/
theorem rebuild_keyed_on_drawOutline_refuted :
    (⟨[], true, [255, 255, 255, 255], 2, 12⟩ : Props).drawOutline =
      (⟨[], true, [255, 255, 255, 255], 1, 12⟩ : Props).drawOutline ∧
    updateState
        ⟨⟨[], true, [255, 255, 255, 255], 2, 12⟩,
         ⟨[], true, [255, 255, 255, 255], 1, 12⟩, ⟨true⟩⟩
        ⟨some (getModel ⟨[], true, [255, 255, 255, 255], 1, 12⟩)⟩ ≠
      ⟨some (getModel ⟨[], true, [255, 255, 255, 255], 1, 12⟩)⟩ := by
  constructor
  · rfl
  · intro h
    have h2 : getModel (⟨[], true, [255, 255, 255, 255], 2, 12⟩ : Props) =
        getModel (⟨[], true, [255, 255, 255, 255], 1, 12⟩ : Props) := by
      have h1 := congrArg LayerState.model h
      simpa [updateState] using h1
    have h3 := congrArg Template.pixelOffsets h2
    simp only [getModel, getOutlinePixelOffsets, INNER_SIDE_OUTLINE_THICKNESS,
      List.nil_append, List.cons_append, List.cons.injEq] at h3
    norm_num at h3

/-- C2 (amended): the geometry template is rebuilt exactly when the change
flags report changed extensions: such an update installs the template built
from the new props, and an update without changed extensions leaves the
state untouched, whether or not drawOutline changed. -/
theorem rebuild_keyed_on_extensionsChanged (params : UpdateParams) (st : LayerState) :
    (params.changeFlags.extensionsChanged = true →
      updateState params st = { st with model := some (getModel params.props) }) ∧
    (params.changeFlags.extensionsChanged = false →
      updateState params st = st) := by
  constructor
  · intro h
    simp [updateState, h]
  · intro h
    simp [updateState, h]

/-- C2 witness: the amended rebuild rule evaluated at concrete inputs. -/
theorem rebuild_keyed_on_extensionsChanged_witness :
    updateState
        ⟨⟨[], false, [255, 255, 255, 255], 1, 12⟩,
         ⟨[], true, [255, 255, 255, 255], 1, 12⟩, ⟨false⟩⟩
        ⟨none⟩ = ⟨none⟩ :=
  (rebuild_keyed_on_extensionsChanged
    ⟨⟨[], false, [255, 255, 255, 255], 1, 12⟩,
     ⟨[], true, [255, 255, 255, 255], 1, 12⟩, ⟨false⟩⟩ ⟨none⟩).2 rfl

/-- C3: the geometry template has exactly 27 floats per channel (9 vertices)
when drawOutline is false and exactly 54 floats per channel (18 vertices)
when drawOutline is true, for every data list, outline colour, outline
thickness and thickness unit. -/
theorem template_vertex_counts (data : List FlowRecord) (oc : List ℚ) (t tu : ℚ) :
    ((getModel ⟨data, false, oc, t, tu⟩).positions.length = 27 ∧
     (getModel ⟨data, false, oc, t, tu⟩).pixelOffsets.length = 27) ∧
    ((getModel ⟨data, true, oc, t, tu⟩).positions.length = 54 ∧
     (getModel ⟨data, true, oc, t, tu⟩).pixelOffsets.length = 54) :=
  ⟨⟨rfl, rfl⟩, ⟨rfl, rfl⟩⟩

/-- C4: when the outline is drawn, the outline-shell sub-range (first 27
entries) and the fill-shape sub-range (last 27 entries) of the template
positions array are element-wise identical — both equal the arrow template —
for every outline thickness and the other props. -/
theorem shells_identical_positions (data : List FlowRecord) (oc : List ℚ) (t tu : ℚ) :
    (getModel ⟨data, true, oc, t, tu⟩).positions.take 27 =
      (getModel ⟨data, true, oc, t, tu⟩).positions.drop 27 ∧
    (getModel ⟨data, true, oc, t, tu⟩).positions.take 27 = POSITIONS :=
  ⟨rfl, rfl⟩

/-- C5: template construction is a deterministic pure function of
(drawOutline, outlineThickness): any two props agreeing on those two fields
yield identical templates (so a true to false to true toggle reproduces the
initial true-state template), and for every outline thickness the outline
pixel-offset list with inner thickness 1 has exactly 27 values. -/
theorem template_pure_function :
    (∀ p q : Props, p.drawOutline = q.drawOutline →
      p.outlineThickness = q.outlineThickness → getModel p = getModel q) ∧
    (∀ t : ℚ, (getOutlinePixelOffsets t 1).length = 27) := by
  constructor
  · intro p q h1 h2
    simp [getModel, h1, h2]
  · intro t
    rfl

/-- C5 witness: two concrete props differing only in data and uniforms
yield the same template, and a concrete offset list has 27 entries. -/
theorem template_pure_function_witness :
    getModel ⟨[⟨none, 10⟩], true, [255, 255, 255, 255], 1, 12⟩ =
      getModel ⟨[], true, [0, 0, 0, 255], 1, 24⟩ ∧
    (getOutlinePixelOffsets 7 1).length = 27 :=
  ⟨template_pure_function.1
      ⟨[⟨none, 10⟩], true, [255, 255, 255, 255], 1, 12⟩
      ⟨[], true, [0, 0, 0, 255], 1, 24⟩ rfl rfl,
   template_pure_function.2 7⟩

/-- C6: the default colour accessor returns the default colour constant
when the record has no colour field or its colour converts to a falsy
value, and otherwise returns the conversion of the colour, which is 4 RGBA
bytes each in the range 0 to 255. -/
theorem default_color_accessor (d : FlowRecord) :
    (d.color = none → defaultGetColor d = DEFAULT_COLOR) ∧
    (∀ c, d.color = some c → colorAsRgba c = none →
      defaultGetColor d = DEFAULT_COLOR) ∧
    (∀ c rgba, d.color = some c → colorAsRgba c = some rgba →
      defaultGetColor d = rgba ∧ rgba.length = 4 ∧
        ∀ x ∈ rgba, 0 ≤ x ∧ x ≤ 255) := by
  refine ⟨?_, ?_, ?_⟩
  · intro h
    simp [defaultGetColor, h]
  · intro c hc hn
    simp [defaultGetColor, hc, hn]
  · intro c rgba hc hr
    refine ⟨by simp [defaultGetColor, hc, hr], ?_, ?_⟩
    · cases c with
      | rgb r g b =>
        simp only [colorAsRgba, Option.some.injEq] at hr
        simp [← hr]
      | rgba r g b a =>
        simp only [colorAsRgba, Option.some.injEq] at hr
        simp [← hr]
      | malformed => simp [colorAsRgba] at hr
    · intro x hx
      cases c with
      | rgb r g b =>
        simp only [colorAsRgba, Option.some.injEq] at hr
        rw [← hr] at hx
        simp only [List.mem_cons, List.not_mem_nil, or_false] at hx
        rcases hx with h | h | h | h <;> subst h <;>
          first
          | exact ⟨clampByte_nonneg _, clampByte_le _⟩
          | exact ⟨by norm_num, by norm_num⟩
      | rgba r g b a =>
        simp only [colorAsRgba, Option.some.injEq] at hr
        rw [← hr] at hx
        simp only [List.mem_cons, List.not_mem_nil, or_false] at hx
        rcases hx with h | h | h | h <;> subst h <;>
          exact ⟨clampByte_nonneg _, clampByte_le _⟩
      | malformed => simp [colorAsRgba] at hr

/-- C6 witness: a record with no colour gets the default constant, and one
with an out-of-range RGB colour gets its clamped conversion. -/
theorem default_color_accessor_witness :
    defaultGetColor ⟨none, 5⟩ = DEFAULT_COLOR ∧
    defaultGetColor ⟨some (.rgb 10 20 300), 5⟩ = [10, 20, 255, 255] := by
  constructor
  · exact (default_color_accessor ⟨none, 5⟩).1 rfl
  · have h := ((default_color_accessor ⟨some (.rgb 10 20 300), 5⟩).2.2
      (.rgb 10 20 300) [10, 20, 255, 255] rfl (by decide)).1
    exact h

/-- C7: the default accessors return the origin for the source and target
positions, the count field for the thickness, and 1.0 for the
pickability, for every flow record. -/
theorem default_accessors (d : FlowRecord) :
    defaultGetSourcePosition d = (0, 0) ∧
    defaultGetTargetPosition d = (0, 0) ∧
    defaultGetThickness d = d.count ∧
    defaultGetPickable d = 1 :=
  ⟨rfl, rfl, rfl, rfl⟩

/-- C8: the default configuration is drawOutline true, outlineColor opaque
white, outlineThickness 1, thicknessUnit 12, and the draw parameters
disable the depth test, for every data list. -/
theorem default_configuration (data : List FlowRecord) :
    (defaultProps data).drawOutline = true ∧
    (defaultProps data).outlineColor = [255, 255, 255, 255] ∧
    (defaultProps data).outlineThickness = 1 ∧
    (defaultProps data).thicknessUnit = 12 ∧
    defaultParameters.depthTest = false :=
  ⟨rfl, rfl, rfl, rfl, rfl⟩

/-- C9: the tooltip selector returns nothing for a missing info and for any
tag other than location and flow; a flow info yields a tooltip at the
pointer position carrying origin id, destination id and count; a location
info yields one carrying the name and the incoming, outgoing and internal
totals. -/
theorem tooltip_state_selector :
    getTooltipState none = none ∧
    (∀ x y : ℚ, getTooltipState (some (.other x y)) = none) ∧
    (∀ (x y : ℚ) (o dd : String) (c : ℚ),
      getTooltipState (some (.flow x y o dd c)) =
        some ⟨⟨x, y⟩, .flowContent o dd c⟩) ∧
    (∀ (x y : ℚ) (nm : String) (totals : LocationTotals),
      getTooltipState (some (.location x y nm totals)) =
        some ⟨⟨x, y⟩, .locationContent nm
          totals.incomingCount totals.outgoingCount totals.internalCount⟩) :=
  ⟨rfl, fun _ _ => rfl, fun _ _ _ _ _ => rfl, fun _ _ _ _ => rfl⟩

/-- C10: the uniforms sent on draw are the thickness unit doubled (24 under
the default of 12), the constant gap 0.5, and each outline colour byte
divided by 255, for every props. -/
theorem draw_uniforms (p : Props) :
    (draw p).thicknessUnit = p.thicknessUnit * 2 ∧
    (draw p).gap = 1 / 2 ∧
    (draw p).outlineColor = p.outlineColor.map (fun x => x / 255) ∧
    (draw (defaultProps p.data)).thicknessUnit = 24 := by
  refine ⟨rfl, rfl, rfl, ?_⟩
  show (12 : ℚ) * 2 = 24
  norm_num

end FlowmapGL
